import Mathlib

/-
Verification of the SAT results manager repository (two Python scripts:
`sat.py`, the improved version, and `sat_manager.py`, the basic version).

Modelling conventions:
- Python floats are modelled by `ℚ`; every numeric comparison in the code and
  in the properties uses the same expression (`score > 0.3 * max_score` etc.),
  so the idealisation is uniform on both sides.
- Python dicts (insertion ordered, unique keys) are modelled by association
  lists; `dict[k] = v` keeps the position of an existing key and appends a
  fresh key, `del dict[k]` removes the entry.
- `input()` re-prompt loops are modelled by a list of successive user inputs;
  when the list is exhausted the loop would block forever, which is modelled
  by a `blocked` / `none` result.
- A numeric user input that Python's `float()` accepts is modelled as
  `some q : Option ℚ`, an unparseable one as `none`.
- `save_data` writing to disk is modelled by a boolean `saveOk` parameter
  (`true`: the write succeeds, `false`: it raises/reports `IOError`).
- `str.strip()`, `str.lower()`, `str.isdigit()` are modelled character-wise
  over the string's character list (`pystrip`, `pylower`, `pyisdigit`).
-/

/-- Characterwise model of Python `str.strip()` (default whitespace). -/
def pystrip (s : String) : String :=
  ⟨((s.data.dropWhile Char.isWhitespace).reverse.dropWhile Char.isWhitespace).reverse⟩

/-- Characterwise model of Python `str.lower()` (ASCII letters). -/
def pylower (s : String) : String :=
  ⟨s.data.map Char.toLower⟩

/-- Model of Python `str.isdigit()`: non-empty and every character a digit. -/
def pyisdigit (s : String) : Bool :=
  !s.data.isEmpty && s.data.all Char.isDigit

/-- One candidate record, as built by `insert_data` in both scripts. -/
structure Record where
  name : String
  address : String
  city : String
  country : String
  pincode : String
  sat_score : ℚ
  passed : Bool
deriving DecidableEq, Repr

/-- The in-memory store `self.data` / `data`: configured maximum score plus
the name-indexed records dict (modelled as an insertion-ordered assoc list). -/
structure Store where
  max_score : ℚ
  records : List (String × Record)
deriving DecidableEq, Repr

/-- Python dict read `d[k]` / membership `k in d`. -/
def pyLookup : List (String × Record) → String → Option Record
  | [], _ => none
  | (k, v) :: rest, n => if k = n then some v else pyLookup rest n

/-- Python dict write `d[k] = v`: update in place, or append a fresh key. -/
def pyDictSet : List (String × Record) → String → Record → List (String × Record)
  | [], n, v => [(n, v)]
  | (k, w) :: rest, n, v =>
      if k = n then (n, v) :: rest else (k, w) :: pyDictSet rest n v

/-- Python dict delete `del d[k]` (only ever called on a present key). -/
def pyDictDel : List (String × Record) → String → List (String × Record)
  | [], _ => []
  | (k, w) :: rest, n => if k = n then rest else (k, w) :: pyDictDel rest n

/-- One user input to the max-score prompt: empty line, an unparseable entry,
or a parsed number. -/
inductive MaxInp where
  | empty
  | bad
  | val (q : ℚ)
deriving DecidableEq, Repr

/-- The max-score input loop, identical in both scripts' `set_max_score`:
an empty line cancels, an unparseable or non-positive entry re-prompts,
a positive number is accepted.  `none` models a forever-blocking loop,
`some none` the cancel path, `some (some q)` an accepted new maximum. -/
def firstMaxInput : List MaxInp → Option (Option ℚ)
  | [] => none
  | MaxInp.empty :: _ => some none
  | MaxInp.bad :: rest => firstMaxInput rest
  | MaxInp.val q :: rest =>
      if q ≤ 0 then firstMaxInput rest else some (some q)

/-- State of the persisted JSON data file when an operation reads it. -/
inductive JDoc where
  /-- A JSON object; the `max_score` / `records` keys may each be absent. -/
  | jdict (maxField : Option ℚ) (recsField : Option (List (String × Record)))
  /-- A JSON array (of numbers): valid JSON that is not an object. -/
  | jarr (es : List ℚ)
deriving DecidableEq, Repr

/-- The data file as seen by `load_data`: absent, unparseable, or parsed. -/
inductive FileState where
  | missing
  | invalidJson
  | validJson (d : JDoc)
deriving DecidableEq, Repr

/-- Outcome of a mutating operation in `sat.py`: the input loop never got a
valid entry (`blocked`), the operation completed and any attempted save
succeeded (`ok`), or the save failed, was reported, and the rollback code ran
(`failed`).  Both carry the resulting in-memory store. -/
inductive PyOut where
  | blocked
  | ok (st : Store)
  | failed (st : Store)
deriving DecidableEq, Repr

namespace SatPy

/-- Default maximum from `SATResultsManager.__init__` in sat.py. -/
def default_max_score : ℚ := 1600

/-- sat.py `load_data`: missing file, JSON parse failure and a non-dict
document (the `isinstance` check raises `ValueError`, caught) all fall back
to a fresh store; a dict document has its missing keys filled in. -/
def load_data : FileState → Store
  | FileState.missing => ⟨default_max_score, []⟩
  | FileState.invalidJson => ⟨default_max_score, []⟩
  | FileState.validJson (JDoc.jarr _) => ⟨default_max_score, []⟩
  | FileState.validJson (JDoc.jdict m rs) => ⟨m.getD default_max_score, rs.getD []⟩

/-- sat.py `compute_pass`: `score > 0.3 * self.data["max_score"]`. -/
def compute_pass (st : Store) (score : ℚ) : Bool :=
  decide (3/10 * st.max_score < score)

/-- sat.py `validate_name`: strip, non-empty, at most 100 characters. -/
def validate_name (name : String) : Bool :=
  let n := pystrip name
  if n = "" then false
  else if 100 < n.data.length then false
  else true

/-- sat.py `validate_score`: `float()` must succeed (`none` models the
`ValueError` re-prompt), the value must be non-negative and at most the
current maximum. -/
def validate_score (st : Store) (scoreInp : Option ℚ) : Option ℚ :=
  match scoreInp with
  | none => none
  | some s =>
      if s < 0 then none
      else if st.max_score < s then none
      else some s

/-- The name input loop of sat.py `insert_data`: strip each entry and keep
re-prompting until `validate_name` accepts (the duplicate check happens
afterwards, outside the loop's `continue` path). -/
def firstValidName : List String → Option String
  | [] => none
  | i :: rest =>
      let n := pystrip i
      if validate_name n then some n else firstValidName rest

/-- The pincode input loop of sat.py `insert_data`: strip, re-prompt on an
empty entry, on non-digits, or on fewer than 3 digits. -/
def firstValidPincode : List String → Option String
  | [] => none
  | i :: rest =>
      let p := pystrip i
      if p = "" then firstValidPincode rest
      else if !pyisdigit p || p.data.length < 3 then firstValidPincode rest
      else some p

/-- The score input loop shared by sat.py `insert_data` and `update_score`:
re-prompt until `validate_score` accepts. -/
def firstValidScore (st : Store) : List (Option ℚ) → Option ℚ
  | [] => none
  | i :: rest =>
      match validate_score st i with
      | some s => some s
      | none => firstValidScore st rest

/-- sat.py `insert_data`: validate the name (a valid duplicate aborts),
collect address fields, validate pincode and score, compute the pass flag,
store the record, save; on save failure delete the just-added record and
report the failure. -/
def insert_data (st : Store) (nameInps : List String)
    (address city country : String) (pinInps : List String)
    (scoreInps : List (Option ℚ)) (saveOk : Bool) : PyOut :=
  match firstValidName nameInps with
  | none => PyOut.blocked
  | some name =>
    if (pyLookup st.records name).isSome then PyOut.ok st
    else
      match firstValidPincode pinInps with
      | none => PyOut.blocked
      | some pincode =>
        match firstValidScore st scoreInps with
        | none => PyOut.blocked
        | some score =>
          let passed := compute_pass st score
          let r0 : Record :=
            ⟨name, pystrip address, pystrip city, pystrip country, pincode, score, passed⟩
          let st1 : Store := { st with records := pyDictSet st.records name r0 }
          if saveOk then PyOut.ok st1
          else PyOut.failed { st1 with records := pyDictDel st1.records name }

/-- sat.py `update_score`: empty store or unknown name leave the store as is;
otherwise read a valid new score, overwrite score and recomputed pass flag,
save; on save failure restore both fields and report the failure. -/
def update_score (st : Store) (nameInp : String)
    (scoreInps : List (Option ℚ)) (saveOk : Bool) : PyOut :=
  if st.records.isEmpty then PyOut.ok st
  else
    let name := pystrip nameInp
    match pyLookup st.records name with
    | none => PyOut.ok st
    | some r =>
      match firstValidScore st scoreInps with
      | none => PyOut.blocked
      | some ns =>
        let r1 := { r with sat_score := ns, passed := compute_pass st ns }
        let st1 := { st with records := pyDictSet st.records name r1 }
        if saveOk then PyOut.ok st1
        else
          let rRestored := { r1 with sat_score := r.sat_score, passed := r.passed }
          PyOut.failed { st with records := pyDictSet st.records name rRestored }

/-- sat.py `delete_one_record`: empty store or unknown name leave the store
as is; deletion happens only when the stripped confirmation equals
`DELETE <name>` exactly; on save failure the backup record is re-inserted
(Python re-appends it at the end of the dict) and the failure reported. -/
def delete_one_record (st : Store) (nameInp confirmInp : String)
    (saveOk : Bool) : PyOut :=
  if st.records.isEmpty then PyOut.ok st
  else
    let name := pystrip nameInp
    match pyLookup st.records name with
    | none => PyOut.ok st
    | some r =>
      if pystrip confirmInp = "DELETE " ++ name then
        let st1 := { st with records := pyDictDel st.records name }
        if saveOk then PyOut.ok st1
        else
          PyOut.failed
            { st with records := pyDictSet (pyDictDel st.records name) name r }
      else PyOut.ok st

/-- sat.py `set_max_score`: read a positive new maximum (empty line cancels),
install it, recompute every record's pass flag against the new maximum,
save; on save failure restore the old maximum and recompute every flag
against it again, reporting the failure. -/
def set_max_score (st : Store) (inps : List MaxInp) (saveOk : Bool) : PyOut :=
  match firstMaxInput inps with
  | none => PyOut.blocked
  | some none => PyOut.ok st
  | some (some q) =>
    let stNew : Store := { st with max_score := q }
    let st1 : Store :=
      { stNew with records :=
          stNew.records.map (fun p => (p.1, { p.2 with passed := compute_pass stNew p.2.sat_score })) }
    if saveOk then PyOut.ok st1
    else
      let st2 : Store := { st1 with max_score := st.max_score }
      PyOut.failed
        { st2 with records :=
            st2.records.map (fun p => (p.1, { p.2 with passed := compute_pass st2 p.2.sat_score })) }

/-- The quantities computed and printed by sat.py `get_rank`: the candidate's
score, rank, the total, the percentile, and the tie note (printed only when
more than one record shares the score). -/
structure RankInfo where
  score : ℚ
  rank : Nat
  total : Nat
  percentile : ℚ
  sameNote : Option Nat
deriving DecidableEq, Repr

/-- sat.py `get_rank`: empty store and unknown name yield nothing; otherwise
rank is 1 + the number of strictly greater scores, the percentile is
`(total - rank + 1) / total * 100`, and the count of equal scores is
reported only when it exceeds 1. -/
def get_rank (st : Store) (nameInp : String) : Option RankInfo :=
  if st.records.isEmpty then none
  else
    let name := pystrip nameInp
    match pyLookup st.records name with
    | none => none
    | some cand =>
      let my_score := cand.sat_score
      let all_scores := st.records.map (fun p => p.2.sat_score)
      let higher_count := (all_scores.filter (fun s => decide (my_score < s))).length
      let rank := higher_count + 1
      let same_score_count := (all_scores.filter (fun s => decide (s = my_score))).length
      let total := all_scores.length
      let percentile := (((total : ℚ) - (rank : ℚ) + 1) / (total : ℚ)) * 100
      some ⟨my_score, rank, total, percentile,
        if 1 < same_score_count then some same_score_count else none⟩

end SatPy

/-- A Python value in a score / max-score position: a number, a string that
`float()` parses to a number, or a string that `float()` rejects. -/
inductive PyVal where
  | num (q : ℚ)
  | strNum (q : ℚ)
  | strBad (s : String)
deriving DecidableEq, Repr

/-- Result of Python `float(v)`: the parsed value, or `none` when it raises. -/
def pyFloat : PyVal → Option ℚ
  | PyVal.num q => some q
  | PyVal.strNum q => some q
  | PyVal.strBad _ => none

/-- Outcome of a sat_manager.py operation: completed normally (`ok`), or an
exception escaped it (`exn`, e.g. an `IOError` from the unguarded
`save_data`), carrying the in-memory store at that moment. -/
inductive SMResult where
  | ok (st : Store)
  | exn (msg : String) (st : Store)
deriving DecidableEq, Repr

namespace SatM

/-- sat_manager.py `load_data`: missing file and unparseable JSON fall back
to a fresh store with maximum 100; a parsed dict has its missing keys filled
in; a parsed non-dict document (e.g. an array of numbers) reaches
`data["max_score"] = 100`, which raises an uncaught `TypeError`. -/
def load_data : FileState → Except String Store
  | FileState.missing => Except.ok ⟨100, []⟩
  | FileState.invalidJson => Except.ok ⟨100, []⟩
  | FileState.validJson (JDoc.jdict m rs) => Except.ok ⟨m.getD 100, rs.getD []⟩
  | FileState.validJson (JDoc.jarr _) => Except.error "TypeError"

/-- sat_manager.py `compute_pass(score, max_score)`: `float(score)` is tried
and a failure returns `False`; `float(max_score)` is evaluated outside the
`try`, so its failure raises an uncaught `ValueError`. -/
def compute_pass (score max_score : PyVal) : Except String Bool :=
  match pyFloat score with
  | none => Except.ok false
  | some s =>
      match pyFloat max_score with
      | none => Except.error "ValueError"
      | some m => Except.ok (decide (3/10 * m < s))

/-- Pass flag for the numeric arguments every operation actually passes:
`compute_pass` never raises on numbers (see `compute_pass_num`). -/
def passFlag (score max_score : ℚ) : Bool :=
  match compute_pass (PyVal.num score) (PyVal.num max_score) with
  | Except.ok b => b
  | Except.error _ => false

/-- The score input loop of sat_manager.py `insert_data` / `update_score`:
re-prompt until `float()` succeeds; no range check at all. -/
def firstParsedScore : List (Option ℚ) → Option ℚ
  | [] => none
  | none :: rest => firstParsedScore rest
  | some q :: _ => some q

/-- sat_manager.py `insert_data`: an empty stripped name or a duplicate name
aborts; address, city, country and pincode are stored as typed (stripped,
unvalidated); the first parseable score is stored as is; `save_data` is not
guarded, so a write failure escapes with the record already inserted. -/
def insert_data (st : Store) (nameInp address city country pincode : String)
    (scoreInps : List (Option ℚ)) (saveOk : Bool) : Option SMResult :=
  let name := pystrip nameInp
  if name = "" then some (SMResult.ok st)
  else if (pyLookup st.records name).isSome then some (SMResult.ok st)
  else
    match firstParsedScore scoreInps with
    | none => none
    | some score =>
      let passed := passFlag score st.max_score
      let r0 : Record :=
        ⟨name, pystrip address, pystrip city, pystrip country, pystrip pincode, score, passed⟩
      let st1 : Store := { st with records := pyDictSet st.records name r0 }
      some (if saveOk then SMResult.ok st1 else SMResult.exn "IOError" st1)

/-- sat_manager.py `update_score`: empty store or unknown name leave the
store as is; the first parseable score is stored with a recomputed pass
flag; an unguarded save failure escapes with the mutation in place. -/
def update_score (st : Store) (nameInp : String)
    (scoreInps : List (Option ℚ)) (saveOk : Bool) : Option SMResult :=
  if st.records.isEmpty then some (SMResult.ok st)
  else
    let name := pystrip nameInp
    match pyLookup st.records name with
    | none => some (SMResult.ok st)
    | some r =>
      match firstParsedScore scoreInps with
      | none => none
      | some ns =>
        let r1 := { r with sat_score := ns, passed := passFlag ns st.max_score }
        let st1 := { st with records := pyDictSet st.records name r1 }
        some (if saveOk then SMResult.ok st1 else SMResult.exn "IOError" st1)

/-- sat_manager.py `delete_one_record`: empty store or unknown name leave
the store as is; the record is removed when the stripped, lowercased
confirmation equals `yes`; an unguarded save failure escapes with the
record already deleted. -/
def delete_one_record (st : Store) (nameInp confirmInp : String)
    (saveOk : Bool) : SMResult :=
  if st.records.isEmpty then SMResult.ok st
  else
    let name := pystrip nameInp
    match pyLookup st.records name with
    | none => SMResult.ok st
    | some _ =>
      if pylower (pystrip confirmInp) = "yes" then
        let st1 := { st with records := pyDictDel st.records name }
        if saveOk then SMResult.ok st1 else SMResult.exn "IOError" st1
      else SMResult.ok st

/-- sat_manager.py `set_max_score`: read a positive new maximum (empty line
keeps the current one), install it, recompute every pass flag against it,
then save; an unguarded save failure escapes with the mutation in place. -/
def set_max_score (st : Store) (inps : List MaxInp) (saveOk : Bool) :
    Option SMResult :=
  match firstMaxInput inps with
  | none => none
  | some none => some (SMResult.ok st)
  | some (some q) =>
    let st1 : Store :=
      { max_score := q,
        records := st.records.map (fun p => (p.1, { p.2 with passed := passFlag p.2.sat_score q })) }
    some (if saveOk then SMResult.ok st1 else SMResult.exn "IOError" st1)

/-- The quantities computed and printed by sat_manager.py `get_rank`: score,
rank, total, and the tie note (printed only when more than one record shares
the score); no percentile is computed. -/
structure SMRank where
  score : ℚ
  rank : Nat
  total : Nat
  sameNote : Option Nat
deriving DecidableEq, Repr

/-- sat_manager.py `get_rank`: empty store and unknown name yield nothing;
rank is 1 + the number of strictly greater scores; the count of equal
scores is reported only when it exceeds 1. -/
def get_rank (st : Store) (nameInp : String) : Option SMRank :=
  if st.records.isEmpty then none
  else
    let name := pystrip nameInp
    match pyLookup st.records name with
    | none => none
    | some cand =>
      let my_score := cand.sat_score
      let all_scores := st.records.map (fun p => p.2.sat_score)
      let higher_count := (all_scores.filter (fun s => decide (my_score < s))).length
      let rank := 1 + higher_count
      let same_score_count := (all_scores.filter (fun s => decide (s = my_score))).length
      let total := all_scores.length
      some ⟨my_score, rank, total,
        if 1 < same_score_count then some same_score_count else none⟩

end SatM

/-- The pass/fail invariant of the spec: every record's flag equals
`sat_score > 0.3 * max_score` for the store's current maximum. -/
def StoreInv (st : Store) : Prop :=
  ∀ p ∈ st.records, p.2.passed = decide (3/10 * st.max_score < p.2.sat_score)

instance : DecidablePred StoreInv := fun st =>
  List.decidableBAll _ st.records

/-- Extensional equality of stores: same maximum and the same name-to-record
mapping (Python dict equality ignores insertion order). -/
def Store.equiv (s t : Store) : Prop :=
  s.max_score = t.max_score ∧ ∀ k, pyLookup s.records k = pyLookup t.records k

instance {ε α : Type} [DecidableEq ε] [DecidableEq α] : DecidableEq (Except ε α) := fun a b =>
  match a, b with
  | Except.ok x, Except.ok y =>
      if h : x = y then isTrue (by rw [h]) else isFalse (by intro hh; cases hh; exact h rfl)
  | Except.error x, Except.error y =>
      if h : x = y then isTrue (by rw [h]) else isFalse (by intro hh; cases hh; exact h rfl)
  | Except.ok _, Except.error _ => isFalse (by intro hh; cases hh)
  | Except.error _, Except.ok _ => isFalse (by intro hh; cases hh)

/-- The pass/fail invariant holds for the store carried by a sat.py
operation outcome (vacuously for a blocked input loop). -/
def OutInv : PyOut → Prop
  | PyOut.blocked => True
  | PyOut.ok st => StoreInv st
  | PyOut.failed st => StoreInv st

/-- The pass/fail invariant holds for the store carried by a sat_manager.py
operation outcome (vacuously for a blocked input loop). -/
def SMOutInv : Option SMResult → Prop
  | none => True
  | some (SMResult.ok st) => StoreInv st
  | some (SMResult.exn _ st) => StoreInv st

/-- Sanity check: sat_manager.py compute_pass on two numeric arguments never raises. -/
theorem SatM.compute_pass_num (s m : ℚ) :
    SatM.compute_pass (PyVal.num s) (PyVal.num m) = Except.ok (decide (3/10 * m < s)) := rfl

theorem pyLookup_dictSet_self (rs : List (String × Record)) (k : String) (v : Record) :
    pyLookup (pyDictSet rs k v) k = some v := by
  induction rs with
  | nil => simp [pyDictSet, pyLookup]
  | cons hd tl ih =>
    obtain ⟨k1, v1⟩ := hd
    by_cases h : k1 = k
    · subst h; simp [pyDictSet, pyLookup]
    · simp [pyDictSet, pyLookup, h, ih]

theorem pyLookup_dictSet_ne (rs : List (String × Record)) (k k' : String) (v : Record)
    (h : k' ≠ k) : pyLookup (pyDictSet rs k v) k' = pyLookup rs k' := by
  induction rs with
  | nil => simp [pyDictSet, pyLookup, Ne.symm h]
  | cons hd tl ih =>
    obtain ⟨k1, v1⟩ := hd
    by_cases h1 : k1 = k
    · subst h1
      simp [pyDictSet, pyLookup, Ne.symm h]
    · simp [pyDictSet, pyLookup, h1, ih]

theorem pyLookup_dictDel_ne (rs : List (String × Record)) (k k' : String)
    (h : k' ≠ k) : pyLookup (pyDictDel rs k) k' = pyLookup rs k' := by
  induction rs with
  | nil => simp [pyDictDel]
  | cons hd tl ih =>
    obtain ⟨k1, v1⟩ := hd
    by_cases h1 : k1 = k
    · subst h1
      simp [pyDictDel, pyLookup, Ne.symm h]
    · simp [pyDictDel, pyLookup, h1, ih]

theorem pyDictDel_dictSet_fresh (rs : List (String × Record)) (k : String) (v : Record)
    (h : pyLookup rs k = none) : pyDictDel (pyDictSet rs k v) k = rs := by
  induction rs with
  | nil => simp [pyDictSet, pyDictDel]
  | cons hd tl ih =>
    obtain ⟨k1, v1⟩ := hd
    by_cases h1 : k1 = k
    · subst h1; simp [pyLookup] at h
    · simp [pyLookup, h1] at h
      simp [pyDictSet, pyDictDel, h1, ih h]

theorem pyDictSet_lookup_self (rs : List (String × Record)) (k : String) (v : Record)
    (h : pyLookup rs k = some v) : pyDictSet rs k v = rs := by
  induction rs with
  | nil => simp [pyLookup] at h
  | cons hd tl ih =>
    obtain ⟨k1, v1⟩ := hd
    by_cases h1 : k1 = k
    · subst h1
      simp [pyLookup] at h
      simp [pyDictSet, h]
    · simp [pyLookup, h1] at h
      simp [pyDictSet, h1, ih h]

theorem mem_pyDictSet (rs : List (String × Record)) (k : String) (v : Record)
    (p : String × Record) (h : p ∈ pyDictSet rs k v) : p = (k, v) ∨ p ∈ rs := by
  induction rs with
  | nil => simp [pyDictSet] at h; simp [h]
  | cons hd tl ih =>
    obtain ⟨k1, v1⟩ := hd
    by_cases h1 : k1 = k
    · subst h1
      simp [pyDictSet] at h
      rcases h with h | h
      · exact Or.inl h
      · exact Or.inr (List.mem_cons_of_mem _ h)
    · simp [pyDictSet, h1] at h
      rcases h with h | h
      · exact Or.inr (by simp [h])
      · rcases ih h with h2 | h2
        · exact Or.inl h2
        · exact Or.inr (List.mem_cons_of_mem _ h2)

theorem mem_pyDictDel (rs : List (String × Record)) (k : String)
    (p : String × Record) (h : p ∈ pyDictDel rs k) : p ∈ rs := by
  induction rs with
  | nil => simp [pyDictDel] at h
  | cons hd tl ih =>
    obtain ⟨k1, v1⟩ := hd
    by_cases h1 : k1 = k
    · subst h1
      simp [pyDictDel] at h
      exact List.mem_cons_of_mem _ h
    · simp [pyDictDel, h1] at h
      rcases h with h | h
      · simp [h]
      · exact List.mem_cons_of_mem _ (ih h)

theorem pyLookup_mem (rs : List (String × Record)) (k : String) (v : Record)
    (h : pyLookup rs k = some v) : (k, v) ∈ rs := by
  induction rs with
  | nil => simp [pyLookup] at h
  | cons hd tl ih =>
    obtain ⟨k1, v1⟩ := hd
    by_cases h1 : k1 = k
    · subst h1
      simp [pyLookup] at h
      simp [h]
    · simp [pyLookup, h1] at h
      exact List.mem_cons_of_mem _ (ih h)

theorem pyLookup_isEmpty_false (rs : List (String × Record)) (k : String) (v : Record)
    (h : pyLookup rs k = some v) : rs.isEmpty = false := by
  cases rs with
  | nil => simp [pyLookup] at h
  | cons hd tl => rfl

/-- Recomputing every pass flag against maximum `m` is the identity on a
record list whose flags already agree with `m`. -/
theorem map_recompute_eq (rs : List (String × Record)) (m : ℚ)
    (h : ∀ p ∈ rs, p.2.passed = decide (3/10 * m < p.2.sat_score)) :
    rs.map (fun p => (p.1, { p.2 with passed := decide (3/10 * m < p.2.sat_score) })) = rs := by
  induction rs with
  | nil => rfl
  | cons hd tl ih =>
    have hhd := h hd (List.mem_cons_self _ _)
    have htl : ∀ p ∈ tl, p.2.passed = decide (3/10 * m < p.2.sat_score) :=
      fun p hp => h p (List.mem_cons_of_mem _ hp)
    obtain ⟨k1, v1⟩ := hd
    simp only [List.map_cons, ih htl]
    simp only at hhd
    rw [← hhd]

/-- C8: in both scripts, invoking delete on a name that is not present in the
store's records leaves the store (maximum and all records) unchanged. -/
theorem c8_delete_missing_frame (st : Store) (nameInp confirmInp : String) (saveOk : Bool)
    (h : pyLookup st.records (pystrip nameInp) = none) :
    SatPy.delete_one_record st nameInp confirmInp saveOk = PyOut.ok st ∧
    SatM.delete_one_record st nameInp confirmInp saveOk = SMResult.ok st := by
  constructor
  · unfold SatPy.delete_one_record
    cases hrec : st.records with
    | nil => simp
    | cons hd tl =>
      rw [hrec] at h
      simp [h]
  · unfold SatM.delete_one_record
    cases hrec : st.records with
    | nil => simp
    | cons hd tl =>
      rw [hrec] at h
      simp [h]

/-- C8 witness: deleting the absent name `alice` from a one-record store
leaves it unchanged in both scripts. -/
theorem c8_delete_missing_frame_wit :
    SatPy.delete_one_record ⟨1600, [("bob", ⟨"bob", "", "", "", "123", 500, true⟩)]⟩
        "alice" "DELETE alice" true
      = PyOut.ok ⟨1600, [("bob", ⟨"bob", "", "", "", "123", 500, true⟩)]⟩ ∧
    SatM.delete_one_record ⟨1600, [("bob", ⟨"bob", "", "", "", "123", 500, true⟩)]⟩
        "alice" "yes" true
      = SMResult.ok ⟨1600, [("bob", ⟨"bob", "", "", "", "123", 500, true⟩)]⟩ :=
  ⟨(c8_delete_missing_frame ⟨1600, [("bob", ⟨"bob", "", "", "", "123", 500, true⟩)]⟩
      "alice" "DELETE alice" true (by decide)).1,
   (c8_delete_missing_frame ⟨1600, [("bob", ⟨"bob", "", "", "", "123", 500, true⟩)]⟩
      "alice" "yes" true (by decide)).2⟩

/-- C9 counterexample: sat_manager.py deletes a record although the
confirmation input `YES` does not match the required string `yes` exactly
(the comparison lowercases the input first). -/
theorem c9_counterexample :
    SatM.delete_one_record ⟨100, [("bob", ⟨"bob", "a", "c", "d", "123", 50, true⟩)]⟩
        "bob" "YES" true
      = SMResult.ok ⟨100, []⟩ ∧ ("YES" : String) ≠ "yes" := by
  constructor
  · decide
  · decide

/-- C9 amended: the record is kept whenever the confirmation input fails the
script's comparison: in sat.py the stripped input must equal
`DELETE <name>` exactly, in sat_manager.py the stripped and lowercased
input must equal `yes`. -/
theorem c9_delete_confirm_amended (st : Store) (nameInp confirmInp : String) (saveOk : Bool) :
    (pystrip confirmInp ≠ "DELETE " ++ pystrip nameInp →
      SatPy.delete_one_record st nameInp confirmInp saveOk = PyOut.ok st) ∧
    (pylower (pystrip confirmInp) ≠ "yes" →
      SatM.delete_one_record st nameInp confirmInp saveOk = SMResult.ok st) := by
  constructor
  · intro hc
    unfold SatPy.delete_one_record
    cases hrec : st.records with
    | nil => simp
    | cons hd tl =>
      simp only [List.isEmpty_cons, if_false, Bool.false_eq_true]
      cases hl : pyLookup (hd :: tl) (pystrip nameInp) with
      | none => simp
      | some r => simp [hc]
  · intro hc
    unfold SatM.delete_one_record
    cases hrec : st.records with
    | nil => simp
    | cons hd tl =>
      simp only [List.isEmpty_cons, if_false, Bool.false_eq_true]
      cases hl : pyLookup (hd :: tl) (pystrip nameInp) with
      | none => simp
      | some r => simp [hc]

/-- C9 witness: with confirmation input `no`, neither script deletes the
record `bob`. -/
theorem c9_delete_confirm_amended_wit :
    SatPy.delete_one_record ⟨100, [("bob", ⟨"bob", "a", "c", "d", "123", 50, true⟩)]⟩
        "bob" "no" true
      = PyOut.ok ⟨100, [("bob", ⟨"bob", "a", "c", "d", "123", 50, true⟩)]⟩ ∧
    SatM.delete_one_record ⟨100, [("bob", ⟨"bob", "a", "c", "d", "123", 50, true⟩)]⟩
        "bob" "no" true
      = SMResult.ok ⟨100, [("bob", ⟨"bob", "a", "c", "d", "123", 50, true⟩)]⟩ :=
  ⟨(c9_delete_confirm_amended ⟨100, [("bob", ⟨"bob", "a", "c", "d", "123", 50, true⟩)]⟩
      "bob" "no" true).1 (by decide),
   (c9_delete_confirm_amended ⟨100, [("bob", ⟨"bob", "a", "c", "d", "123", 50, true⟩)]⟩
      "bob" "no" true).2 (by decide)⟩

/-- C5 counterexample: sat_manager.py's load falls back to maximum 100, not
1600, and on a valid-JSON array document it raises an uncaught `TypeError`
instead of returning a fresh store. -/
theorem c5_counterexample :
    SatM.load_data FileState.missing = Except.ok ⟨100, []⟩ ∧
    (Except.ok (⟨100, []⟩ : Store) : Except String Store) ≠ Except.ok ⟨1600, []⟩ ∧
    SatM.load_data (FileState.validJson (JDoc.jarr [1])) = Except.error "TypeError" := by
  refine ⟨rfl, ?_, rfl⟩
  decide

/-- C5 amended: sat.py's load returns a fresh empty store with the default
maximum 1600 on a missing file, invalid JSON, or a non-dict document;
sat_manager.py's load instead uses the default maximum 100 and raises an
uncaught `TypeError` when the file holds valid JSON that is not an object. -/
theorem c5_load_amended :
    SatPy.load_data FileState.missing = ⟨1600, []⟩ ∧
    SatPy.load_data FileState.invalidJson = ⟨1600, []⟩ ∧
    (∀ es, SatPy.load_data (FileState.validJson (JDoc.jarr es)) = ⟨1600, []⟩) ∧
    SatM.load_data FileState.missing = Except.ok ⟨100, []⟩ ∧
    SatM.load_data FileState.invalidJson = Except.ok ⟨100, []⟩ ∧
    (∀ es, SatM.load_data (FileState.validJson (JDoc.jarr es)) = Except.error "TypeError") :=
  ⟨rfl, rfl, fun _ => rfl, rfl, rfl, fun _ => rfl⟩

/-- C10 counterexample: sat_manager.py's `compute_pass` raises an uncaught
`ValueError` when the score parses but the maximum does not, because
`float(max_score)` is evaluated outside the `try` block. -/
theorem c10_counterexample :
    SatM.compute_pass (PyVal.num 500) (PyVal.strBad "abc") = Except.error "ValueError" := by
  decide

/-- C10 amended: `compute_pass` returns a boolean whenever `max_score`
parses as a float, and returns `False` for any unparseable score (in that
case `float(max_score)` is never reached, so no exception can arise). -/
theorem c10_compute_pass_amended :
    (∀ sv mv : PyVal, ∀ m : ℚ, pyFloat mv = some m →
      ∃ b : Bool, SatM.compute_pass sv mv = Except.ok b) ∧
    (∀ sv mv : PyVal, pyFloat sv = none →
      SatM.compute_pass sv mv = Except.ok false) := by
  constructor
  · intro sv mv m hm
    unfold SatM.compute_pass
    cases hs : pyFloat sv with
    | none => exact ⟨false, rfl⟩
    | some s =>
      rw [hm]
      exact ⟨decide (3/10 * m < s), rfl⟩
  · intro sv mv hs
    unfold SatM.compute_pass
    rw [hs]

/-- C10 witness: a numeric maximum yields a boolean, and the unparseable
score `abc` yields `False`. -/
theorem c10_compute_pass_amended_wit :
    (∃ b : Bool, SatM.compute_pass (PyVal.num 5) (PyVal.num 100) = Except.ok b) ∧
    SatM.compute_pass (PyVal.strBad "abc") (PyVal.num 100) = Except.ok false :=
  ⟨c10_compute_pass_amended.1 (PyVal.num 5) (PyVal.num 100) 100 rfl,
   c10_compute_pass_amended.2 (PyVal.strBad "abc") (PyVal.num 100) rfl⟩

/-- C6: rank is stable under ties in both scripts: records with equal
scores receive the same rank, and any candidate whose score is maximal
receives rank 1. -/
theorem c6_tie_stability (st : Store) (n1 n2 : String) (r1 r2 : Record)
    (h1 : pyLookup st.records (pystrip n1) = some r1)
    (h2 : pyLookup st.records (pystrip n2) = some r2)
    (heq : r1.sat_score = r2.sat_score) :
    (SatPy.get_rank st n1).map SatPy.RankInfo.rank
      = (SatPy.get_rank st n2).map SatPy.RankInfo.rank ∧
    (SatM.get_rank st n1).map SatM.SMRank.rank
      = (SatM.get_rank st n2).map SatM.SMRank.rank ∧
    ((∀ p ∈ st.records, p.2.sat_score ≤ r1.sat_score) →
      (SatPy.get_rank st n1).map SatPy.RankInfo.rank = some 1 ∧
      (SatM.get_rank st n1).map SatM.SMRank.rank = some 1) := by
  have hne : st.records.isEmpty = false := pyLookup_isEmpty_false _ _ _ h1
  refine ⟨?_, ?_, ?_⟩
  · simp only [SatPy.get_rank, hne, Bool.false_eq_true, if_false, h1, h2, Option.map_some',
      heq]
  · simp only [SatM.get_rank, hne, Bool.false_eq_true, if_false, h1, h2, Option.map_some',
      heq]
  · intro htop
    have hnil : (st.records.map (fun p => p.2.sat_score)).filter
        (fun s => decide (r1.sat_score < s)) = [] := by
      rw [List.filter_eq_nil_iff]
      intro a ha
      simp only [List.mem_map] at ha
      obtain ⟨p, hp, rfl⟩ := ha
      simp only [decide_eq_true_eq, not_lt]
      exact htop p hp
    constructor
    · simp only [SatPy.get_rank, hne, Bool.false_eq_true, if_false, h1, Option.map_some', hnil,
        List.length_nil]
    · simp only [SatM.get_rank, hne, Bool.false_eq_true, if_false, h1, Option.map_some', hnil,
        List.length_nil]

set_option maxRecDepth 100000 in
/-- C6 witness: in a store where `bob` and `eve` share the top score 500
and `joe` scores 300, both scripts give `bob` and `eve` the same rank,
namely 1. -/
theorem c6_tie_stability_wit :
    (SatPy.get_rank ⟨1600, [("bob", ⟨"bob", "", "", "", "123", 500, true⟩),
        ("eve", ⟨"eve", "", "", "", "123", 500, true⟩),
        ("joe", ⟨"joe", "", "", "", "123", 300, false⟩)]⟩ "bob").map SatPy.RankInfo.rank
      = (SatPy.get_rank ⟨1600, [("bob", ⟨"bob", "", "", "", "123", 500, true⟩),
        ("eve", ⟨"eve", "", "", "", "123", 500, true⟩),
        ("joe", ⟨"joe", "", "", "", "123", 300, false⟩)]⟩ "eve").map SatPy.RankInfo.rank ∧
    (SatPy.get_rank ⟨1600, [("bob", ⟨"bob", "", "", "", "123", 500, true⟩),
        ("eve", ⟨"eve", "", "", "", "123", 500, true⟩),
        ("joe", ⟨"joe", "", "", "", "123", 300, false⟩)]⟩ "bob").map SatPy.RankInfo.rank
      = some 1 ∧
    (SatM.get_rank ⟨1600, [("bob", ⟨"bob", "", "", "", "123", 500, true⟩),
        ("eve", ⟨"eve", "", "", "", "123", 500, true⟩),
        ("joe", ⟨"joe", "", "", "", "123", 300, false⟩)]⟩ "bob").map SatM.SMRank.rank
      = some 1 := by
  have h := c6_tie_stability ⟨1600, [("bob", ⟨"bob", "", "", "", "123", 500, true⟩),
      ("eve", ⟨"eve", "", "", "", "123", 500, true⟩),
      ("joe", ⟨"joe", "", "", "", "123", 300, false⟩)]⟩ "bob" "eve"
      ⟨"bob", "", "", "", "123", 500, true⟩ ⟨"eve", "", "", "", "123", 500, true⟩
      (by decide) (by decide) (by decide)
  have htop := h.2.2 (by with_unfolding_all decide)
  exact ⟨h.1, htop.1, htop.2⟩

set_option maxRecDepth 100000 in
/-- C4 counterexample: for a single-record store the count of records whose
score equals the candidate's score is 1, but sat.py's rank query does not
report it (the tie note is printed only when the count exceeds 1). -/
theorem c4_counterexample :
    SatPy.get_rank ⟨1600, [("bob", ⟨"bob", "", "", "", "123", 500, true⟩)]⟩ "bob"
      = some ⟨500, 1, 1, 100, none⟩ ∧
    some (⟨500, 1, 1, 100, none⟩ : SatPy.RankInfo) ≠ some ⟨500, 1, 1, 100, some 1⟩ := by
  constructor
  · with_unfolding_all decide
  · decide

/-- C4 amended: for a candidate present in a non-empty store, both rank
queries return rank = 1 + the number of records with strictly greater score
and the total; sat.py's also returns percentile = (total − rank + 1) / total
× 100 (sat_manager.py's computes no percentile); the count of records whose
score equals the candidate's is reported only when it is greater than 1. -/
theorem c4_rank_amended (st : Store) (n : String) (cand : Record)
    (h : pyLookup st.records (pystrip n) = some cand) :
    (SatPy.get_rank st n).isSome = true ∧
    (SatM.get_rank st n).isSome = true ∧
    (∀ i, SatPy.get_rank st n = some i →
      i.score = cand.sat_score ∧
      i.rank = 1 + ((st.records.map (fun p => p.2.sat_score)).filter
          (fun s => decide (cand.sat_score < s))).length ∧
      i.total = st.records.length ∧
      i.percentile = (((i.total : ℚ) - (i.rank : ℚ) + 1) / (i.total : ℚ)) * 100 ∧
      i.sameNote = (if 1 < ((st.records.map (fun p => p.2.sat_score)).filter
            (fun s => decide (s = cand.sat_score))).length
          then some ((st.records.map (fun p => p.2.sat_score)).filter
            (fun s => decide (s = cand.sat_score))).length
          else none)) ∧
    (∀ i, SatM.get_rank st n = some i →
      i.score = cand.sat_score ∧
      i.rank = 1 + ((st.records.map (fun p => p.2.sat_score)).filter
          (fun s => decide (cand.sat_score < s))).length ∧
      i.total = st.records.length ∧
      i.sameNote = (if 1 < ((st.records.map (fun p => p.2.sat_score)).filter
            (fun s => decide (s = cand.sat_score))).length
          then some ((st.records.map (fun p => p.2.sat_score)).filter
            (fun s => decide (s = cand.sat_score))).length
          else none)) := by
  have hne : st.records.isEmpty = false := pyLookup_isEmpty_false _ _ _ h
  refine ⟨?_, ?_, ?_, ?_⟩
  · simp [SatPy.get_rank, hne, h]
  · simp [SatM.get_rank, hne, h]
  · intro i hi
    simp only [SatPy.get_rank, hne, Bool.false_eq_true, if_false, h] at hi
    cases hi
    refine ⟨rfl, Nat.add_comm _ _, by simp, rfl, rfl⟩
  · intro i hi
    simp only [SatM.get_rank, hne, Bool.false_eq_true, if_false, h] at hi
    cases hi
    refine ⟨rfl, rfl, by simp, rfl⟩

set_option maxRecDepth 100000 in
/-- C4 witness: concrete two-record store, with `joe` strictly above `bob`:
`bob` gets rank 2 of 2, percentile 50, and no tie note. -/
theorem c4_rank_amended_wit :
    (SatPy.get_rank ⟨1600, [("bob", ⟨"bob", "", "", "", "123", 400, true⟩),
        ("joe", ⟨"joe", "", "", "", "123", 500, true⟩)]⟩ "bob").isSome = true ∧
    ((⟨400, 2, 2, 50, none⟩ : SatPy.RankInfo).score = 400 ∧
      (⟨400, 2, 2, 50, none⟩ : SatPy.RankInfo).rank = 1 + 1 ∧
      (⟨400, 2, 2, 50, none⟩ : SatPy.RankInfo).total = 2 ∧
      (⟨400, 2, 2, 50, none⟩ : SatPy.RankInfo).percentile = (((2 : ℚ) - (2 : ℚ) + 1) / (2 : ℚ)) * 100 ∧
      (⟨400, 2, 2, 50, none⟩ : SatPy.RankInfo).sameNote = none) := by
  have h := c4_rank_amended ⟨1600, [("bob", ⟨"bob", "", "", "", "123", 400, true⟩),
      ("joe", ⟨"joe", "", "", "", "123", 500, true⟩)]⟩ "bob"
      ⟨"bob", "", "", "", "123", 400, true⟩ (by decide)
  have h3 := h.2.2.1 ⟨400, 2, 2, 50, none⟩ (by with_unfolding_all decide)
  refine ⟨h.1, h3.1, h3.2.1, ?_, ?_, h3.2.2.2.2⟩
  · have := h3.2.2.1
    simpa using this
  · have := h3.2.2.2.1
    simpa using this


/-- A score accepted by the sat.py score loop passed `validate_score`, so it
is within bounds. -/
theorem firstValidScore_bounds (st : Store) (inps : List (Option ℚ)) (s : ℚ)
    (h : SatPy.firstValidScore st inps = some s) : 0 ≤ s ∧ s ≤ st.max_score := by
  induction inps with
  | nil => simp [SatPy.firstValidScore] at h
  | cons i rest ih =>
    simp only [SatPy.firstValidScore] at h
    cases hv : SatPy.validate_score st i with
    | none => rw [hv] at h; exact ih h
    | some t =>
      rw [hv] at h
      cases h
      cases i with
      | none => simp [SatPy.validate_score] at hv
      | some x =>
        simp only [SatPy.validate_score] at hv
        split_ifs at hv with h1 h2
        cases hv
        exact ⟨not_lt.mp h1, not_lt.mp h2⟩

/-- A pincode accepted by the sat.py pincode loop is non-empty, all digits,
and at least 3 characters long. -/
theorem firstValidPincode_ok (inps : List String) (p : String)
    (h : SatPy.firstValidPincode inps = some p) :
    p ≠ "" ∧ pyisdigit p = true ∧ 3 ≤ p.data.length := by
  induction inps with
  | nil => simp [SatPy.firstValidPincode] at h
  | cons i rest ih =>
    simp only [SatPy.firstValidPincode] at h
    split_ifs at h with h1 h2
    · exact ih h
    · exact ih h
    · cases h
      cases hpd : pyisdigit (pystrip i) with
      | false => exact absurd (by rw [hpd]; rfl) h2
      | true =>
        refine ⟨h1, rfl, ?_⟩
        by_contra hlen
        exact h2 (by rw [hpd]; simpa using not_le.mp hlen)


/-- Case analysis of sat.py `insert_data` outcomes that carry a store: the
store is unchanged (duplicate name, or rollback after a failed save), or the
validated record was added and the save succeeded. -/
theorem insert_data_spec (st : Store) (nameInps : List String) (a c co : String)
    (pins : List String) (scores : List (Option ℚ)) (saveOk : Bool) (st' : Store)
    (h : SatPy.insert_data st nameInps a c co pins scores saveOk = PyOut.ok st' ∨
         SatPy.insert_data st nameInps a c co pins scores saveOk = PyOut.failed st') :
    st' = st ∨
    ∃ name pin score,
      SatPy.firstValidName nameInps = some name ∧
      pyLookup st.records name = none ∧
      SatPy.firstValidPincode pins = some pin ∧
      SatPy.firstValidScore st scores = some score ∧
      saveOk = true ∧
      st' = { st with records := pyDictSet st.records name ⟨name, pystrip a, pystrip c, pystrip co, pin, score, SatPy.compute_pass st score⟩ } := by
  unfold SatPy.insert_data at h
  cases h1 : SatPy.firstValidName nameInps with
  | none => simp only [h1] at h; rcases h with h | h <;> cases h
  | some name =>
    simp only [h1] at h
    cases h2 : pyLookup st.records name with
    | some r =>
      simp only [h2, Option.isSome_some, if_true] at h
      rcases h with h | h
      · cases h; exact Or.inl rfl
      · cases h
    | none =>
      simp only [h2, Option.isSome_none, Bool.false_eq_true, if_false] at h
      cases h3 : SatPy.firstValidPincode pins with
      | none => simp only [h3] at h; rcases h with h | h <;> cases h
      | some pin =>
        simp only [h3] at h
        cases h4 : SatPy.firstValidScore st scores with
        | none => simp only [h4] at h; rcases h with h | h <;> cases h
        | some score =>
          simp only [h4] at h
          cases saveOk with
          | true =>
            simp at h
            subst h
            exact Or.inr ⟨name, pin, score, rfl, h2, rfl, rfl, rfl, rfl⟩
          | false =>
            simp at h
            subst h
            left
            show Store.mk st.max_score (pyDictDel (pyDictSet st.records name _) name) = st
            rw [pyDictDel_dictSet_fresh _ _ _ h2]

/-- Case analysis of sat.py `update_score` outcomes that carry a store: the
store is unchanged (empty store, unknown name, or rollback after a failed
save), or the record's new score and recomputed flag were stored and the
save succeeded. -/
theorem update_score_spec (st : Store) (nameInp : String)
    (scores : List (Option ℚ)) (saveOk : Bool) (st' : Store)
    (h : SatPy.update_score st nameInp scores saveOk = PyOut.ok st' ∨
         SatPy.update_score st nameInp scores saveOk = PyOut.failed st') :
    st' = st ∨
    ∃ r ns,
      pyLookup st.records (pystrip nameInp) = some r ∧
      SatPy.firstValidScore st scores = some ns ∧
      saveOk = true ∧
      st' = { st with records := pyDictSet st.records (pystrip nameInp) { r with sat_score := ns, passed := SatPy.compute_pass st ns } } := by
  unfold SatPy.update_score at h
  cases he : st.records.isEmpty with
  | true =>
    simp only [he, if_true] at h
    rcases h with h | h
    · cases h; exact Or.inl rfl
    · cases h
  | false =>
    simp only [he, Bool.false_eq_true, if_false] at h
    cases h2 : pyLookup st.records (pystrip nameInp) with
    | none =>
      simp only [h2] at h
      rcases h with h | h
      · cases h; exact Or.inl rfl
      · cases h
    | some r =>
      simp only [h2] at h
      cases h4 : SatPy.firstValidScore st scores with
      | none => simp only [h4] at h; rcases h with h | h <;> cases h
      | some ns =>
        simp only [h4] at h
        cases saveOk with
        | true =>
          simp at h
          subst h
          exact Or.inr ⟨r, ns, rfl, rfl, rfl, rfl⟩
        | false =>
          simp at h
          subst h
          left
          show Store.mk st.max_score (pyDictSet st.records (pystrip nameInp) r) = st
          rw [pyDictSet_lookup_self _ _ _ h2]

/-- Case analysis of sat.py `delete_one_record` outcomes: the store is
unchanged (empty store, unknown name, cancelled confirmation), the record
was removed and the save succeeded, or the save failed and the backup
record was re-inserted (Python re-appends it at the end of the dict). -/
theorem delete_one_record_spec (st : Store) (nameInp confirmInp : String)
    (saveOk : Bool) (st' : Store)
    (h : SatPy.delete_one_record st nameInp confirmInp saveOk = PyOut.ok st' ∨
         SatPy.delete_one_record st nameInp confirmInp saveOk = PyOut.failed st') :
    st' = st ∨
    ∃ r,
      pyLookup st.records (pystrip nameInp) = some r ∧
      pystrip confirmInp = "DELETE " ++ pystrip nameInp ∧
      ((saveOk = true ∧ st' = { st with records := pyDictDel st.records (pystrip nameInp) }) ∨
       (saveOk = false ∧ st' = { st with records := pyDictSet (pyDictDel st.records (pystrip nameInp)) (pystrip nameInp) r })) := by
  unfold SatPy.delete_one_record at h
  cases he : st.records.isEmpty with
  | true =>
    simp only [he, if_true] at h
    rcases h with h | h
    · cases h; exact Or.inl rfl
    · cases h
  | false =>
    simp only [he, Bool.false_eq_true, if_false] at h
    cases h2 : pyLookup st.records (pystrip nameInp) with
    | none =>
      simp only [h2] at h
      rcases h with h | h
      · cases h; exact Or.inl rfl
      · cases h
    | some r =>
      simp only [h2] at h
      by_cases hc : pystrip confirmInp = "DELETE " ++ pystrip nameInp
      · rw [if_pos hc] at h
        cases saveOk with
        | true =>
          simp at h
          subst h
          exact Or.inr ⟨r, rfl, hc, Or.inl ⟨rfl, rfl⟩⟩
        | false =>
          simp at h
          subst h
          exact Or.inr ⟨r, rfl, hc, Or.inr ⟨rfl, rfl⟩⟩
      · rw [if_neg hc] at h
        rcases h with h | h
        · cases h; exact Or.inl rfl
        · cases h

/-- Case analysis of sat.py `set_max_score` outcomes: the store is unchanged
(cancelled), every flag was recomputed against the accepted new maximum and
the save succeeded, or the save failed and every flag was recomputed against
the restored old maximum. -/
theorem set_max_score_spec (st : Store) (inps : List MaxInp) (saveOk : Bool) (st' : Store)
    (h : SatPy.set_max_score st inps saveOk = PyOut.ok st' ∨
         SatPy.set_max_score st inps saveOk = PyOut.failed st') :
    st' = st ∨
    ∃ q,
      firstMaxInput inps = some (some q) ∧
      ((saveOk = true ∧ st' = ⟨q, st.records.map (fun p => (p.1, { p.2 with passed := decide (3/10 * q < p.2.sat_score) }))⟩) ∨
       (saveOk = false ∧ st' = ⟨st.max_score, st.records.map (fun p => (p.1, { p.2 with passed := decide (3/10 * st.max_score < p.2.sat_score) }))⟩)) := by
  unfold SatPy.set_max_score at h
  cases h1 : firstMaxInput inps with
  | none => simp only [h1] at h; rcases h with h | h <;> cases h
  | some o =>
    cases o with
    | none =>
      simp only [h1] at h
      rcases h with h | h
      · cases h; exact Or.inl rfl
      · cases h
    | some q =>
      simp only [h1] at h
      cases saveOk with
      | true =>
        simp at h
        subst h
        exact Or.inr ⟨q, rfl, Or.inl ⟨rfl, rfl⟩⟩
      | false =>
        simp at h
        subst h
        refine Or.inr ⟨q, rfl, Or.inr ⟨rfl, ?_⟩⟩
        congr 1

/-- C3 counterexample: sat_manager.py's insert accepts and stores the
negative score -5 (its score loop only requires `float()` to succeed), so
the program does not only store scores with 0 ≤ s ≤ max_score. -/
theorem c3_counterexample :
    SatM.insert_data ⟨100, []⟩ "bob" "" "" "" "777" [some (-5)] true
      = some (SMResult.ok ⟨100, [("bob", ⟨"bob", "", "", "", "777", -5, false⟩)]⟩) ∧
    ¬(0 : ℚ) ≤ -5 := by
  constructor
  · with_unfolding_all decide
  · decide

/-- C3 amended: sat.py's `validate_score` accepts exactly the parsed scores
with 0 ≤ s ≤ max_score, and sat.py's insert and update only store such
scores; sat_manager.py's insert (and update) accept any score that parses
as a float and store it unchanged, with no range check. -/
theorem c3_score_validation_amended :
    (∀ st : Store, ∀ inp : Option ℚ, ∀ s : ℚ,
      SatPy.validate_score st inp = some s ↔ inp = some s ∧ 0 ≤ s ∧ s ≤ st.max_score) ∧
    (∀ st nameInps a c co pins scores saveOk st',
      (SatPy.insert_data st nameInps a c co pins scores saveOk = PyOut.ok st' ∨
       SatPy.insert_data st nameInps a c co pins scores saveOk = PyOut.failed st') →
      ∀ p ∈ st'.records, p ∈ st.records ∨ (0 ≤ p.2.sat_score ∧ p.2.sat_score ≤ st.max_score)) ∧
    (∀ st nameInp scores saveOk st',
      (SatPy.update_score st nameInp scores saveOk = PyOut.ok st' ∨
       SatPy.update_score st nameInp scores saveOk = PyOut.failed st') →
      ∀ p ∈ st'.records, p ∈ st.records ∨ (0 ≤ p.2.sat_score ∧ p.2.sat_score ≤ st.max_score)) ∧
    (∀ st : Store, ∀ nameInp a c co pin : String, ∀ q : ℚ, ∀ saveOk : Bool,
      pystrip nameInp ≠ "" →
      pyLookup st.records (pystrip nameInp) = none →
      SatM.insert_data st nameInp a c co pin [some q] saveOk
        = some (if saveOk then SMResult.ok { st with records := pyDictSet st.records (pystrip nameInp) ⟨pystrip nameInp, pystrip a, pystrip c, pystrip co, pystrip pin, q, SatM.passFlag q st.max_score⟩ } else SMResult.exn "IOError" { st with records := pyDictSet st.records (pystrip nameInp) ⟨pystrip nameInp, pystrip a, pystrip c, pystrip co, pystrip pin, q, SatM.passFlag q st.max_score⟩ })) := by
  refine ⟨?_, ?_, ?_, ?_⟩
  · intro st inp s
    cases inp with
    | none => simp [SatPy.validate_score]
    | some x =>
      simp only [SatPy.validate_score, Option.some.injEq]
      constructor
      · intro h
        split_ifs at h with h1 h2
        cases h
        exact ⟨rfl, not_lt.mp h1, not_lt.mp h2⟩
      · rintro ⟨heq, h0, hle⟩
        cases heq
        rw [if_neg (not_lt.mpr h0), if_neg (not_lt.mpr hle)]
  · intro st nameInps a c co pins scores saveOk st' h p hp
    rcases insert_data_spec st nameInps a c co pins scores saveOk st' h with h | ⟨name, pin, score, _, _, _, h4, _, rfl⟩
    · subst h; exact Or.inl hp
    · rcases mem_pyDictSet _ _ _ _ hp with h | h
      · subst h
        exact Or.inr (firstValidScore_bounds st scores score h4)
      · exact Or.inl h
  · intro st nameInp scores saveOk st' h p hp
    rcases update_score_spec st nameInp scores saveOk st' h with h | ⟨r, ns, _, h4, _, rfl⟩
    · subst h; exact Or.inl hp
    · rcases mem_pyDictSet _ _ _ _ hp with h | h
      · subst h
        exact Or.inr (firstValidScore_bounds st scores ns h4)
      · exact Or.inl h
  · intro st nameInp a c co pin q saveOk hn hdup
    cases saveOk <;>
      simp [SatM.insert_data, hn, hdup, SatM.firstParsedScore]

/-- C3 witness: sat.py validation accepts 50 against maximum 100; after a
successful sat.py insert of `bob` with score 50 the stored pair is within
bounds; sat_manager.py's insert of `eve` stores the raw parsed score 77. -/
theorem c3_score_validation_amended_wit :
    SatPy.validate_score ⟨100, []⟩ (some 50) = some 50 ∧
    (("bob", ⟨"bob", "", "", "", "123", 50, true⟩) ∈ ([] : List (String × Record)) ∨
      (0 ≤ (50 : ℚ) ∧ (50 : ℚ) ≤ 100)) ∧
    SatM.insert_data ⟨100, []⟩ "eve" "" "" "" "9" [some 77] true
      = some (SMResult.ok ⟨100, [("eve", ⟨"eve", "", "", "", "9", 77, SatM.passFlag 77 100⟩)]⟩) := by
  refine ⟨?_, ?_, ?_⟩
  · exact (c3_score_validation_amended.1 ⟨100, []⟩ (some 50) 50).mpr ⟨rfl, by decide, by decide⟩
  · exact c3_score_validation_amended.2.1 ⟨100, []⟩ ["bob"] "" "" "" ["123"] [some 50] true
      ⟨100, [("bob", ⟨"bob", "", "", "", "123", 50, true⟩)]⟩
      (Or.inl (by with_unfolding_all decide))
      ("bob", ⟨"bob", "", "", "", "123", 50, true⟩) (by decide)
  · have h := c3_score_validation_amended.2.2.2 ⟨100, []⟩ "eve" "" "" "" "9" 77 true
      (by decide) (by decide)
    simpa using h

/-- C7 counterexample: sat_manager.py's insert stores the pincode `x`
(non-digit, length 1) unvalidated, so the program does store records whose
pincode violates the digits-only / length-3 conditions. -/
theorem c7_counterexample :
    SatM.insert_data ⟨100, []⟩ "eve" "" "" "" "x" [some 50] true
      = some (SMResult.ok ⟨100, [("eve", ⟨"eve", "", "", "", "x", 50, true⟩)]⟩) ∧
    pyisdigit "x" = false := by
  constructor
  · with_unfolding_all decide
  · decide

/-- C7 amended: sat.py's pincode loop accepts exactly the stripped inputs
that are non-empty, digits only, and at least 3 digits long, and sat.py's
insert only stores records with such pincodes; sat_manager.py's insert
stores any pincode string unvalidated. -/
theorem c7_pincode_amended :
    (∀ inps p, SatPy.firstValidPincode inps = some p →
      p ≠ "" ∧ pyisdigit p = true ∧ 3 ≤ p.data.length) ∧
    (∀ i : String, pystrip i ≠ "" → pyisdigit (pystrip i) = true → 3 ≤ (pystrip i).data.length →
      SatPy.firstValidPincode [i] = some (pystrip i)) ∧
    (∀ st nameInps a c co pins scores saveOk st',
      (SatPy.insert_data st nameInps a c co pins scores saveOk = PyOut.ok st' ∨
       SatPy.insert_data st nameInps a c co pins scores saveOk = PyOut.failed st') →
      ∀ p ∈ st'.records, p ∈ st.records ∨
        (p.2.pincode ≠ "" ∧ pyisdigit p.2.pincode = true ∧ 3 ≤ p.2.pincode.data.length)) ∧
    (∀ st : Store, ∀ nameInp a c co pin : String, ∀ q : ℚ,
      pystrip nameInp ≠ "" →
      pyLookup st.records (pystrip nameInp) = none →
      SatM.insert_data st nameInp a c co pin [some q] true
        = some (SMResult.ok { st with records := pyDictSet st.records (pystrip nameInp) ⟨pystrip nameInp, pystrip a, pystrip c, pystrip co, pystrip pin, q, SatM.passFlag q st.max_score⟩ })) := by
  refine ⟨firstValidPincode_ok, ?_, ?_, ?_⟩
  · intro i h1 h2 h3
    simp [SatPy.firstValidPincode, h1, h2]
    exact h3
  · intro st nameInps a c co pins scores saveOk st' h p hp
    rcases insert_data_spec st nameInps a c co pins scores saveOk st' h with h | ⟨name, pin, score, _, _, h3, _, _, rfl⟩
    · subst h; exact Or.inl hp
    · rcases mem_pyDictSet _ _ _ _ hp with h | h
      · subst h
        exact Or.inr (firstValidPincode_ok pins pin h3)
      · exact Or.inl h
  · intro st nameInp a c co pin q hn hdup
    simp only [SatM.insert_data, hn, if_false, hdup, Option.isSome_none, Bool.false_eq_true,
      SatM.firstParsedScore]
    simp

/-- C7 witness: sat.py's loop accepts pincode `123`; after a successful
sat.py insert, the stored pair has a valid pincode; sat_manager.py's insert
of `amy` stores the raw pincode `zz`. -/
theorem c7_pincode_amended_wit :
    SatPy.firstValidPincode ["123"] = some "123" ∧
    (("bob", ⟨"bob", "", "", "", "123", 50, true⟩) ∈ ([] : List (String × Record)) ∨
      (("123" : String) ≠ "" ∧ pyisdigit "123" = true ∧ 3 ≤ ("123" : String).data.length)) ∧
    SatM.insert_data ⟨100, []⟩ "amy" "" "" "" "zz" [some 5] true
      = some (SMResult.ok ⟨100, [("amy", ⟨"amy", "", "", "", "zz", 5, SatM.passFlag 5 100⟩)]⟩) := by
  refine ⟨?_, ?_, ?_⟩
  · have h := c7_pincode_amended.2.1 "123" (by decide) (by decide) (by decide)
    simpa using h
  · exact c7_pincode_amended.2.2.1 ⟨100, []⟩ ["bob"] "" "" "" ["123"] [some 50] true
      ⟨100, [("bob", ⟨"bob", "", "", "", "123", 50, true⟩)]⟩
      (Or.inl (by with_unfolding_all decide))
      ("bob", ⟨"bob", "", "", "", "123", 50, true⟩) (by decide)
  · have h := c7_pincode_amended.2.2.2 ⟨100, []⟩ "amy" "" "" "" "zz" 5
      (by decide) (by decide)
    simpa using h

/-- Case analysis of sat_manager.py `insert_data`: aborted (empty or
duplicate name), or the unvalidated record was inserted and the result is
either a completed save or an escaped save exception with the record still
in the store. -/
theorem sm_insert_data_stores (st : Store) (nameInp a c co pin : String)
    (scores : List (Option ℚ)) (saveOk : Bool) (res : SMResult)
    (h : SatM.insert_data st nameInp a c co pin scores saveOk = some res) :
    res = SMResult.ok st ∨
    ∃ score st1,
      SatM.firstParsedScore scores = some score ∧
      pyLookup st.records (pystrip nameInp) = none ∧
      st1 = { st with records := pyDictSet st.records (pystrip nameInp) ⟨pystrip nameInp, pystrip a, pystrip c, pystrip co, pystrip pin, score, SatM.passFlag score st.max_score⟩ } ∧
      (res = SMResult.ok st1 ∨ res = SMResult.exn "IOError" st1) := by
  unfold SatM.insert_data at h
  by_cases hn : pystrip nameInp = ""
  · simp only [hn, if_true] at h
    cases h
    exact Or.inl rfl
  · simp only [hn, if_false] at h
    cases h2 : pyLookup st.records (pystrip nameInp) with
    | some r =>
      simp only [h2, Option.isSome_some, if_true] at h
      cases h
      exact Or.inl rfl
    | none =>
      simp only [h2, Option.isSome_none, Bool.false_eq_true, if_false] at h
      cases h4 : SatM.firstParsedScore scores with
      | none => simp only [h4] at h; exact Option.noConfusion h
      | some score =>
        simp only [h4, Option.some.injEq] at h
        refine Or.inr ⟨score, _, rfl, rfl, rfl, ?_⟩
        cases saveOk with
        | true => simp at h; exact Or.inl h.symm
        | false => simp at h; exact Or.inr h.symm

/-- Case analysis of sat_manager.py `update_score`: no-op (empty store or
unknown name), or the record was overwritten with the unvalidated score and
a recomputed flag, and the result is a completed save or an escaped save
exception with the mutation in place. -/
theorem sm_update_score_stores (st : Store) (nameInp : String)
    (scores : List (Option ℚ)) (saveOk : Bool) (res : SMResult)
    (h : SatM.update_score st nameInp scores saveOk = some res) :
    res = SMResult.ok st ∨
    ∃ r ns st1,
      pyLookup st.records (pystrip nameInp) = some r ∧
      SatM.firstParsedScore scores = some ns ∧
      st1 = { st with records := pyDictSet st.records (pystrip nameInp) { r with sat_score := ns, passed := SatM.passFlag ns st.max_score } } ∧
      (res = SMResult.ok st1 ∨ res = SMResult.exn "IOError" st1) := by
  unfold SatM.update_score at h
  cases he : st.records.isEmpty with
  | true =>
    simp only [he, if_true] at h
    cases h
    exact Or.inl rfl
  | false =>
    simp only [he, Bool.false_eq_true, if_false] at h
    cases h2 : pyLookup st.records (pystrip nameInp) with
    | none =>
      simp only [h2] at h
      cases h
      exact Or.inl rfl
    | some r =>
      simp only [h2] at h
      cases h4 : SatM.firstParsedScore scores with
      | none => simp only [h4] at h; exact Option.noConfusion h
      | some ns =>
        simp only [h4, Option.some.injEq] at h
        refine Or.inr ⟨r, ns, _, rfl, rfl, rfl, ?_⟩
        cases saveOk with
        | true => simp at h; exact Or.inl h.symm
        | false => simp at h; exact Or.inr h.symm

/-- Case analysis of sat_manager.py `set_max_score`: cancelled, or the new
maximum was installed with every flag recomputed against it, and the result
is a completed save or an escaped save exception with the mutation in
place. -/
theorem sm_set_max_score_stores (st : Store) (inps : List MaxInp) (saveOk : Bool)
    (res : SMResult)
    (h : SatM.set_max_score st inps saveOk = some res) :
    res = SMResult.ok st ∨
    ∃ q st1,
      firstMaxInput inps = some (some q) ∧
      st1 = ⟨q, st.records.map (fun p => (p.1, { p.2 with passed := SatM.passFlag p.2.sat_score q }))⟩ ∧
      (res = SMResult.ok st1 ∨ res = SMResult.exn "IOError" st1) := by
  unfold SatM.set_max_score at h
  cases h1 : firstMaxInput inps with
  | none => simp only [h1] at h; exact Option.noConfusion h
  | some o =>
    cases o with
    | none =>
      simp only [h1] at h
      cases h
      exact Or.inl rfl
    | some q =>
      simp only [h1, Option.some.injEq] at h
      refine Or.inr ⟨q, _, rfl, rfl, ?_⟩
      cases saveOk with
      | true => simp at h; exact Or.inl h.symm
      | false => simp at h; exact Or.inr h.symm

/-- C2 counterexample: in sat_manager.py a failing write during insert
escapes as an uncaught `IOError` with the new record still in the in-memory
store: the mutation is neither rolled back nor reported as a handled
failure. -/
theorem c2_counterexample :
    SatM.insert_data ⟨100, []⟩ "bob" "" "" "" "777" [some 50] false
      = some (SMResult.exn "IOError" ⟨100, [("bob", ⟨"bob", "", "", "", "777", 50, true⟩)]⟩) ∧
    (⟨100, [("bob", ⟨"bob", "", "", "", "777", 50, true⟩)]⟩ : Store) ≠ ⟨100, []⟩ := by
  constructor
  · with_unfolding_all decide
  · decide

/-- C2 amended: in sat.py every mutating operation rolls back the in-memory
store on a failed write and reports the failure (the `failed` outcome):
insert and score update restore the store exactly; delete restores the same
name-to-record mapping (the re-inserted backup moves to the end of the
dict); a max-score change restores the old maximum and recomputes the flags
against it, which restores the store exactly whenever the pass/fail
invariant held before.  In sat_manager.py `save_data` is unguarded: the
write failure escapes as an exception and the insert mutation stays in the
in-memory store. -/
theorem c2_rollback_amended :
    (∀ st nameInps a c co pins scores st',
      (SatPy.insert_data st nameInps a c co pins scores false = PyOut.ok st' ∨
       SatPy.insert_data st nameInps a c co pins scores false = PyOut.failed st') →
      st' = st) ∧
    (∀ st nameInp scores st',
      (SatPy.update_score st nameInp scores false = PyOut.ok st' ∨
       SatPy.update_score st nameInp scores false = PyOut.failed st') →
      st' = st) ∧
    (∀ st nameInp confirmInp st',
      (SatPy.delete_one_record st nameInp confirmInp false = PyOut.ok st' ∨
       SatPy.delete_one_record st nameInp confirmInp false = PyOut.failed st') →
      Store.equiv st' st) ∧
    (∀ st inps st', StoreInv st →
      (SatPy.set_max_score st inps false = PyOut.ok st' ∨
       SatPy.set_max_score st inps false = PyOut.failed st') →
      st' = st) ∧
    (∀ st : Store, ∀ nameInp a c co pin : String, ∀ q : ℚ,
      pystrip nameInp ≠ "" →
      pyLookup st.records (pystrip nameInp) = none →
      SatM.insert_data st nameInp a c co pin [some q] false
        = some (SMResult.exn "IOError" { st with records := pyDictSet st.records (pystrip nameInp) ⟨pystrip nameInp, pystrip a, pystrip c, pystrip co, pystrip pin, q, SatM.passFlag q st.max_score⟩ })) := by
  refine ⟨?_, ?_, ?_, ?_, ?_⟩
  · intro st nameInps a c co pins scores st' h
    rcases insert_data_spec st nameInps a c co pins scores false st' h with h | ⟨_, _, _, _, _, _, _, hT, _⟩
    · exact h
    · simp at hT
  · intro st nameInp scores st' h
    rcases update_score_spec st nameInp scores false st' h with h | ⟨_, _, _, _, hT, _⟩
    · exact h
    · simp at hT
  · intro st nameInp confirmInp st' h
    rcases delete_one_record_spec st nameInp confirmInp false st' h with h | ⟨r, h2, hc, hbr⟩
    · subst h; exact ⟨rfl, fun k => rfl⟩
    · rcases hbr with ⟨hT, _⟩ | ⟨_, rfl⟩
      · simp at hT
      · refine ⟨rfl, fun k => ?_⟩
        by_cases hk : k = pystrip nameInp
        · subst hk
          rw [pyLookup_dictSet_self]
          exact h2.symm
        · rw [pyLookup_dictSet_ne _ _ _ _ hk, pyLookup_dictDel_ne _ _ _ hk]
  · intro st inps st' hInv h
    rcases set_max_score_spec st inps false st' h with h | ⟨q, h1, hbr⟩
    · exact h
    · rcases hbr with ⟨hT, _⟩ | ⟨_, rfl⟩
      · simp at hT
      · have hmap := map_recompute_eq st.records st.max_score hInv
        calc (⟨st.max_score, st.records.map (fun p => (p.1, { p.2 with passed := decide (3/10 * st.max_score < p.2.sat_score) }))⟩ : Store)
            = ⟨st.max_score, st.records⟩ := by rw [hmap]
          _ = st := rfl
  · intro st nameInp a c co pin q hn hdup
    simp [SatM.insert_data, hn, hdup, SatM.firstParsedScore]

/-- C2 witness: concrete failed-save runs of all four sat.py operations end
in the pre-mutation store, and a failed-save sat_manager.py insert escapes
with the record present. -/
theorem c2_rollback_amended_wit :
    ((⟨100, []⟩ : Store) = ⟨100, []⟩) ∧
    ((⟨100, [("bob", ⟨"bob", "", "", "", "123", 50, true⟩)]⟩ : Store)
      = ⟨100, [("bob", ⟨"bob", "", "", "", "123", 50, true⟩)]⟩) ∧
    Store.equiv ⟨100, [("bob", ⟨"bob", "", "", "", "123", 50, true⟩)]⟩
      ⟨100, [("bob", ⟨"bob", "", "", "", "123", 50, true⟩)]⟩ ∧
    SatM.insert_data ⟨100, []⟩ "amy" "" "" "" "777" [some 50] false
      = some (SMResult.exn "IOError" ⟨100, [("amy", ⟨"amy", "", "", "", "777", 50, SatM.passFlag 50 100⟩)]⟩) := by
  refine ⟨?_, ?_, ?_, ?_⟩
  · exact c2_rollback_amended.1 ⟨100, []⟩ ["bob"] "" "" "" ["123"] [some 50] ⟨100, []⟩
      (Or.inr (by with_unfolding_all decide))
  · exact c2_rollback_amended.2.1 ⟨100, [("bob", ⟨"bob", "", "", "", "123", 50, true⟩)]⟩
      "bob" [some 20] ⟨100, [("bob", ⟨"bob", "", "", "", "123", 50, true⟩)]⟩
      (Or.inr (by with_unfolding_all decide))
  · exact c2_rollback_amended.2.2.1 ⟨100, [("bob", ⟨"bob", "", "", "", "123", 50, true⟩)]⟩
      "bob" "DELETE bob" ⟨100, [("bob", ⟨"bob", "", "", "", "123", 50, true⟩)]⟩
      (Or.inr (by with_unfolding_all decide))
  · have h := c2_rollback_amended.2.2.2.2 ⟨100, []⟩ "amy" "" "" "" "777" 50
      (by decide) (by decide)
    simpa using h

/-- C1: in both scripts, if every record's flag agrees with
`sat_score > 0.3 * max_score` before an insert, score update, or max-score
change, then it still does in the store the operation leaves behind, on the
success path as well as on the failure path; a max-score change recomputes
every record's flag against the maximum of the store it writes. -/
theorem c1_pass_invariant :
    (∀ st nameInps a c co pins scores saveOk, StoreInv st →
      OutInv (SatPy.insert_data st nameInps a c co pins scores saveOk)) ∧
    (∀ st nameInp scores saveOk, StoreInv st →
      OutInv (SatPy.update_score st nameInp scores saveOk)) ∧
    (∀ st inps saveOk, StoreInv st →
      OutInv (SatPy.set_max_score st inps saveOk)) ∧
    (∀ st nameInp a c co pin scores saveOk, StoreInv st →
      SMOutInv (SatM.insert_data st nameInp a c co pin scores saveOk)) ∧
    (∀ st nameInp scores saveOk, StoreInv st →
      SMOutInv (SatM.update_score st nameInp scores saveOk)) ∧
    (∀ st inps saveOk, StoreInv st →
      SMOutInv (SatM.set_max_score st inps saveOk)) := by
  have hset : ∀ (rs : List (String × Record)) (m : ℚ),
      StoreInv ⟨m, rs.map (fun p => (p.1, { p.2 with passed := decide (3/10 * m < p.2.sat_score) }))⟩ := by
    intro rs m p hp
    obtain ⟨p0, hp0, rfl⟩ := List.mem_map.mp hp
    rfl
  refine ⟨?_, ?_, ?_, ?_, ?_, ?_⟩
  · intro st nameInps a c co pins scores saveOk hInv
    cases hout : SatPy.insert_data st nameInps a c co pins scores saveOk with
    | blocked => trivial
    | ok st' =>
      show StoreInv st'
      rcases insert_data_spec st nameInps a c co pins scores saveOk st' (Or.inl hout) with h | ⟨name, pin, score, _, _, _, _, _, rfl⟩
      · subst h; exact hInv
      · intro p hp
        rcases mem_pyDictSet _ _ _ _ hp with h | h
        · subst h; rfl
        · exact hInv p h
    | failed st' =>
      show StoreInv st'
      rcases insert_data_spec st nameInps a c co pins scores saveOk st' (Or.inr hout) with h | ⟨name, pin, score, _, _, _, _, _, rfl⟩
      · subst h; exact hInv
      · intro p hp
        rcases mem_pyDictSet _ _ _ _ hp with h | h
        · subst h; rfl
        · exact hInv p h
  · intro st nameInp scores saveOk hInv
    cases hout : SatPy.update_score st nameInp scores saveOk with
    | blocked => trivial
    | ok st' =>
      show StoreInv st'
      rcases update_score_spec st nameInp scores saveOk st' (Or.inl hout) with h | ⟨r, ns, _, _, _, rfl⟩
      · subst h; exact hInv
      · intro p hp
        rcases mem_pyDictSet _ _ _ _ hp with h | h
        · subst h; rfl
        · exact hInv p h
    | failed st' =>
      show StoreInv st'
      rcases update_score_spec st nameInp scores saveOk st' (Or.inr hout) with h | ⟨r, ns, _, _, _, rfl⟩
      · subst h; exact hInv
      · intro p hp
        rcases mem_pyDictSet _ _ _ _ hp with h | h
        · subst h; rfl
        · exact hInv p h
  · intro st inps saveOk hInv
    cases hout : SatPy.set_max_score st inps saveOk with
    | blocked => trivial
    | ok st' =>
      show StoreInv st'
      rcases set_max_score_spec st inps saveOk st' (Or.inl hout) with h | ⟨q, _, ⟨_, rfl⟩ | ⟨_, rfl⟩⟩
      · subst h; exact hInv
      · exact hset st.records q
      · exact hset st.records st.max_score
    | failed st' =>
      show StoreInv st'
      rcases set_max_score_spec st inps saveOk st' (Or.inr hout) with h | ⟨q, _, ⟨_, rfl⟩ | ⟨_, rfl⟩⟩
      · subst h; exact hInv
      · exact hset st.records q
      · exact hset st.records st.max_score
  · intro st nameInp a c co pin scores saveOk hInv
    cases hout : SatM.insert_data st nameInp a c co pin scores saveOk with
    | none => trivial
    | some res =>
      rcases sm_insert_data_stores st nameInp a c co pin scores saveOk res hout with rfl | ⟨score, st1, _, _, rfl, rfl | rfl⟩
      · exact hInv
      · intro p hp
        rcases mem_pyDictSet _ _ _ _ hp with h | h
        · subst h; rfl
        · exact hInv p h
      · intro p hp
        rcases mem_pyDictSet _ _ _ _ hp with h | h
        · subst h; rfl
        · exact hInv p h
  · intro st nameInp scores saveOk hInv
    cases hout : SatM.update_score st nameInp scores saveOk with
    | none => trivial
    | some res =>
      rcases sm_update_score_stores st nameInp scores saveOk res hout with rfl | ⟨r, ns, st1, _, _, rfl, rfl | rfl⟩
      · exact hInv
      · intro p hp
        rcases mem_pyDictSet _ _ _ _ hp with h | h
        · subst h; rfl
        · exact hInv p h
      · intro p hp
        rcases mem_pyDictSet _ _ _ _ hp with h | h
        · subst h; rfl
        · exact hInv p h
  · intro st inps saveOk hInv
    cases hout : SatM.set_max_score st inps saveOk with
    | none => trivial
    | some res =>
      rcases sm_set_max_score_stores st inps saveOk res hout with rfl | ⟨q, st1, _, rfl, rfl | rfl⟩
      · exact hInv
      · exact hset st.records q
      · exact hset st.records q

/-- C1 witness: starting from a store satisfying the invariant, concrete
runs of insert, score update and max-score change in both scripts leave
outcomes whose stores satisfy the invariant. -/
theorem c1_pass_invariant_wit :
    OutInv (SatPy.insert_data ⟨100, [("bob", ⟨"bob", "", "", "", "123", 50, true⟩)]⟩
      ["amy"] "" "" "" ["456"] [some 20] true) ∧
    OutInv (SatPy.update_score ⟨100, [("bob", ⟨"bob", "", "", "", "123", 50, true⟩)]⟩
      "bob" [some 10] true) ∧
    OutInv (SatPy.set_max_score ⟨100, [("bob", ⟨"bob", "", "", "", "123", 50, true⟩)]⟩
      [MaxInp.val 200] false) ∧
    SMOutInv (SatM.insert_data ⟨100, [("bob", ⟨"bob", "", "", "", "123", 50, true⟩)]⟩
      "amy" "" "" "" "x" [some 20] true) ∧
    SMOutInv (SatM.update_score ⟨100, [("bob", ⟨"bob", "", "", "", "123", 50, true⟩)]⟩
      "bob" [some 10] false) ∧
    SMOutInv (SatM.set_max_score ⟨100, [("bob", ⟨"bob", "", "", "", "123", 50, true⟩)]⟩
      [MaxInp.val 200] true) := by
  have hInv : StoreInv ⟨100, [("bob", ⟨"bob", "", "", "", "123", 50, true⟩)]⟩ := by
    with_unfolding_all decide
  exact ⟨c1_pass_invariant.1 _ ["amy"] "" "" "" ["456"] [some 20] true hInv,
    c1_pass_invariant.2.1 _ "bob" [some 10] true hInv,
    c1_pass_invariant.2.2.1 _ [MaxInp.val 200] false hInv,
    c1_pass_invariant.2.2.2.1 _ "amy" "" "" "" "x" [some 20] true hInv,
    c1_pass_invariant.2.2.2.2.1 _ "bob" [some 10] false hInv,
    c1_pass_invariant.2.2.2.2.2 _ [MaxInp.val 200] true hInv⟩
